import Mathlib

/-!
Verification of the marketplace fee/profit comparison engine and the
pricing-strategy calculator of the listapp repository.

The definitions below are a shallow embedding of:
- `src/api/src/services/fee_service.py` (`MarketplacePlatform`, `FeeService`),
- `src/api/src/services/google_shopping_service.py` (the price-statistics
  portion of `get_price_insights`),
- `src/api/src/agents/pricing_agent.py` (`PricingStrategyTool` strategy
  derivation).

Money is modelled with exact rationals (the Python source uses floats; all
fee rates are short decimal literals, embedded exactly).  Python's stable
`list.sort` / `sorted` is modelled with `List.insertionSort`, which is
stable.  Python's `round(x, 2)` (round half to even) is modelled by `round2`.
-/

/-- The `MarketplacePlatform` enum of `fee_service.py`, in declaration order. -/
inductive MarketplacePlatform
  | ebay
  | amazon
  | etsy
  | facebook_marketplace
  | mercari
  | poshmark
  | depop
  | vinted
deriving DecidableEq

/-- A value stored in a fee-breakdown dict: Python stores floats and, for
Vinted, one string note. -/
inductive FeeEntry
  | num (v : ℚ)
  | txt (s : String)
deriving DecidableEq

/-- The `**kwargs` options recognized by `FeeService.calculate_fees` and its
helpers.  `none` models an absent key, mirroring `kwargs.get(...)`. -/
structure FeeOptions where
  international : Option Bool
  store_subscription : Option String
  category : Option String
  fba : Option Bool
  storage_months : Option ℚ
  cubic_feet : Option ℚ
  luxury_authentication : Option Bool
  payment_method : Option String
  shipped : Option Bool
deriving DecidableEq

/-- Calling `calculate_fees` with no keyword arguments. -/
def defaultOptions : FeeOptions :=
  { international := none, store_subscription := none, category := none,
    fba := none, storage_months := none, cubic_feet := none,
    luxury_authentication := none, payment_method := none, shipped := none }

/-- The dictionary returned by `FeeService.calculate_fees`. -/
structure FeeResult where
  platform : String
  sale_price : ℚ
  shipping_cost : ℚ
  gross_revenue : ℚ
  total_fees : ℚ
  net_revenue : ℚ
  item_cost : ℚ
  profit : ℚ
  profit_margin_percent : ℚ
  fee_breakdown : List (String × FeeEntry)
deriving DecidableEq

/-- `fee_structure[EBAY]["store_subscription"]` lookup. -/
def ebayStoreSub : String → Option ℚ
  | "basic" => some 7.95
  | "premium" => some 27.95
  | "anchor" => some 349.95
  | "enterprise" => some 2999.95
  | _ => none

/-- `fee_structure[AMAZON]["category_fees"]` lookup. -/
def amazonCategoryFee : String → Option ℚ
  | "electronics" => some 0.08
  | "clothing" => some 0.17
  | "books" => some 0.15
  | "home_garden" => some 0.15
  | "toys_games" => some 0.15
  | _ => none

/-- `FeeService._calculate_ebay_fees`.  Rates from `fee_structure[EBAY]`:
final value 0.1295, payment processing 0.0295, international 0.015.  The
store-subscription line is added to the breakdown but not to `total_fees`. -/
def calculateEbayFees (sale_price shipping_cost : ℚ) (opts : FeeOptions) :
    ℚ × List (String × FeeEntry) :=
  let total_transaction := sale_price + shipping_cost
  let final_value_fee := total_transaction * 0.1295
  let payment_fee := total_transaction * 0.0295
  let total_fees :=
    final_value_fee + payment_fee +
      (if opts.international.getD false then total_transaction * 0.015 else 0)
  let breakdown :=
    [("final_value_fee", FeeEntry.num final_value_fee),
     ("payment_processing_fee", FeeEntry.num payment_fee)] ++
    (if opts.international.getD false then
      [("international_fee", FeeEntry.num (total_transaction * 0.015))]
    else []) ++
    (match opts.store_subscription.bind ebayStoreSub with
     | some amt => [("store_subscription", FeeEntry.num amt)]
     | none => [])
  (total_fees, breakdown)

/-- `FeeService._calculate_amazon_fees`.  Referral rate from
`category_fees` with default 0.15; FBA adds a flat 3.00 fulfillment fee and
`0.75 * cubic_feet * storage_months` (both kwargs default to 1). -/
def calculateAmazonFees (sale_price shipping_cost : ℚ) (opts : FeeOptions) :
    ℚ × List (String × FeeEntry) :=
  let referral_rate := (amazonCategoryFee (opts.category.getD "default")).getD 0.15
  let referral_fee := sale_price * referral_rate
  if opts.fba.getD false then
    let storage_fee := 0.75 * (opts.cubic_feet.getD 1) * (opts.storage_months.getD 1)
    (referral_fee + 3.00 + storage_fee,
     [("referral_fee", FeeEntry.num referral_fee),
      ("fulfillment_fee", FeeEntry.num 3.00),
      ("storage_fee", FeeEntry.num storage_fee)])
  else
    (referral_fee, [("referral_fee", FeeEntry.num referral_fee)])

/-- `FeeService._calculate_etsy_fees`: listing 0.20, transaction 6.5% of
`sale_price`, payment `(sale_price+shipping)*0.03 + 0.25`. -/
def calculateEtsyFees (sale_price shipping_cost : ℚ) (_opts : FeeOptions) :
    ℚ × List (String × FeeEntry) :=
  let transaction_fee := sale_price * 0.065
  let payment_fee := (sale_price + shipping_cost) * 0.03 + 0.25
  (0.20 + transaction_fee + payment_fee,
   [("listing_fee", FeeEntry.num 0.20),
    ("transaction_fee", FeeEntry.num transaction_fee),
    ("payment_processing_fee", FeeEntry.num payment_fee)])

/-- `FeeService._calculate_facebook_fees`: shipped items (the default) pay
5% of `sale_price` plus `(sale_price+shipping)*0.029 + 0.30`; local pickup
pays nothing. -/
def calculateFacebookFees (sale_price shipping_cost : ℚ) (opts : FeeOptions) :
    ℚ × List (String × FeeEntry) :=
  if opts.shipped.getD true then
    let selling_fee := sale_price * 0.05
    let payment_fee := (sale_price + shipping_cost) * 0.029 + 0.30
    (selling_fee + payment_fee,
     [("selling_fee", FeeEntry.num selling_fee),
      ("payment_processing_fee", FeeEntry.num payment_fee)])
  else
    (0, [])

/-- `FeeService._calculate_mercari_fees`: 10% selling fee,
`(sale_price+shipping)*0.029 + 0.30` payment fee, optional flat 5.00
authentication fee. -/
def calculateMercariFees (sale_price shipping_cost : ℚ) (opts : FeeOptions) :
    ℚ × List (String × FeeEntry) :=
  let selling_fee := sale_price * 0.10
  let payment_fee := (sale_price + shipping_cost) * 0.029 + 0.30
  if opts.luxury_authentication.getD false then
    (selling_fee + payment_fee + 5.00,
     [("selling_fee", FeeEntry.num selling_fee),
      ("payment_processing_fee", FeeEntry.num payment_fee),
      ("authentication_fee", FeeEntry.num 5.00)])
  else
    (selling_fee + payment_fee,
     [("selling_fee", FeeEntry.num selling_fee),
      ("payment_processing_fee", FeeEntry.num payment_fee)])

/-- `FeeService._calculate_poshmark_fees`: flat 2.95 commission below 15.0,
else 20% of `sale_price`. -/
def calculatePoshmarkFees (sale_price shipping_cost : ℚ) (_opts : FeeOptions) :
    ℚ × List (String × FeeEntry) :=
  let commission := if sale_price < 15.0 then 2.95 else sale_price * 0.20
  (commission, [("commission", FeeEntry.num commission)])

/-- `FeeService._calculate_depop_fees`: 10% selling fee plus a payment fee
that is `(sale_price+shipping)*0.029 + 0.30` on both the paypal and the
depop-payments branch (the source uses `paypal_fixed` in both). -/
def calculateDepopFees (sale_price shipping_cost : ℚ) (opts : FeeOptions) :
    ℚ × List (String × FeeEntry) :=
  let selling_fee := sale_price * 0.10
  let total_transaction := sale_price + shipping_cost
  let payment_fee :=
    if opts.payment_method.getD "depop_payments" = "paypal" then
      total_transaction * 0.029 + 0.30
    else
      total_transaction * 0.029 + 0.30
  (selling_fee + payment_fee,
   [("selling_fee", FeeEntry.num selling_fee),
    ("payment_processing_fee", FeeEntry.num payment_fee)])

/-- `FeeService._calculate_vinted_fees`: sellers pay nothing; the breakdown
holds a zero `seller_fee` line and a string note. -/
def calculateVintedFees (_sale_price _shipping_cost : ℚ) (_opts : FeeOptions) :
    ℚ × List (String × FeeEntry) :=
  (0, [("seller_fee", FeeEntry.num 0), ("note", FeeEntry.txt "Fees paid by buyer")])

/-- The `platform.value` string of the enum. -/
def platformValue : MarketplacePlatform → String
  | .ebay => "ebay"
  | .amazon => "amazon"
  | .etsy => "etsy"
  | .facebook_marketplace => "facebook_marketplace"
  | .mercari => "mercari"
  | .poshmark => "poshmark"
  | .depop => "depop"
  | .vinted => "vinted"

/-- `FeeService.calculate_fees`: dispatch to the per-platform helper, then
`gross_revenue = sale_price + shipping_cost`,
`net_revenue = gross_revenue - total_fees`, `profit = net_revenue - item_cost`,
`profit_margin = profit / gross_revenue * 100` when `gross_revenue > 0` else 0.
The source performs no validation of the monetary inputs. -/
def calculateFees (platform : MarketplacePlatform) (sale_price : ℚ)
    (shipping_cost : ℚ) (item_cost : ℚ) (opts : FeeOptions) : FeeResult :=
  let fees :=
    match platform with
    | .ebay => calculateEbayFees sale_price shipping_cost opts
    | .amazon => calculateAmazonFees sale_price shipping_cost opts
    | .etsy => calculateEtsyFees sale_price shipping_cost opts
    | .facebook_marketplace => calculateFacebookFees sale_price shipping_cost opts
    | .mercari => calculateMercariFees sale_price shipping_cost opts
    | .poshmark => calculatePoshmarkFees sale_price shipping_cost opts
    | .depop => calculateDepopFees sale_price shipping_cost opts
    | .vinted => calculateVintedFees sale_price shipping_cost opts
  let gross_revenue := sale_price + shipping_cost
  let net_revenue := gross_revenue - fees.1
  let profit := net_revenue - item_cost
  { platform := platformValue platform,
    sale_price := sale_price,
    shipping_cost := shipping_cost,
    gross_revenue := gross_revenue,
    total_fees := fees.1,
    net_revenue := net_revenue,
    item_cost := item_cost,
    profit := profit,
    profit_margin_percent := if gross_revenue > 0 then profit / gross_revenue * 100 else 0,
    fee_breakdown := fees.2 }

/-- The entry guard `if platform not in self.fee_structure: raise ValueError`.
All eight enum members are keys of `fee_structure`; a Python caller can still
pass any other object, modelled here by `none`. -/
def calculateFeesChecked (platform : Option MarketplacePlatform) (sale_price : ℚ)
    (shipping_cost : ℚ) (item_cost : ℚ) (opts : FeeOptions) :
    Except String FeeResult :=
  match platform with
  | none => .error "Platform not supported"
  | some p => .ok (calculateFees p sale_price shipping_cost item_cost opts)

/-- Sum of the numeric fee line items of a breakdown dict. -/
def feeLineSum (b : List (String × FeeEntry)) : ℚ :=
  b.foldl (fun acc e => match e.2 with | .num v => acc + v | .txt _ => acc) 0

/-- Dict lookup in a breakdown. -/
def lookupFee (b : List (String × FeeEntry)) (k : String) : Option FeeEntry :=
  (b.find? (fun e => e.1 == k)).map Prod.snd

/-- `list(MarketplacePlatform)` in declaration order. -/
def allPlatforms : List MarketplacePlatform :=
  [.ebay, .amazon, .etsy, .facebook_marketplace, .mercari, .poshmark, .depop, .vinted]

/-- `comparisons.sort(key=lambda x: x["profit"], reverse=True)`: a stable
sort placing higher profit first. -/
def sortByProfit (l : List FeeResult) : List FeeResult :=
  l.insertionSort (fun a b => b.profit ≤ a.profit)

/-- The `try/except` body of the `compare_platforms` loop: a platform whose
`calculate_fees` call raises contributes nothing (`continue`, after a log
warning); a successful call contributes its result. -/
def tryCalculateFees (p : Option MarketplacePlatform)
    (sale_price shipping_cost item_cost : ℚ) : Option FeeResult :=
  match calculateFeesChecked p sale_price shipping_cost item_cost defaultOptions with
  | .ok r => some r
  | .error _ => none

/-- `FeeService.compare_platforms`: defaults to all platforms, computes fees
per platform with `calculate_fees(platform, sale_price, shipping_cost,
item_cost)` (no kwargs), skips any platform whose computation raises,
then sorts by profit descending. -/
def comparePlatforms (sale_price : ℚ) (item_cost : ℚ) (shipping_cost : ℚ)
    (platforms : Option (List (Option MarketplacePlatform))) : List FeeResult :=
  let ps := platforms.getD (allPlatforms.map some)
  let comparisons := ps.filterMap
    (fun p => tryCalculateFees p sale_price shipping_cost item_cost)
  sortByProfit comparisons

/-- Python `sorted` on a price list (ascending, stable). -/
def sortAsc (l : List ℚ) : List ℚ :=
  l.insertionSort (· ≤ ·)

/-- Python `min(list)` on a nonempty list (0 on the unreachable empty case). -/
def pyMin : List ℚ → ℚ
  | [] => 0
  | x :: xs => xs.foldl min x

/-- Python `max(list)` on a nonempty list (0 on the unreachable empty case). -/
def pyMax : List ℚ → ℚ
  | [] => 0
  | x :: xs => xs.foldl max x

/-- Round half to even to an integer, Python's `round(x)` on an exact value. -/
def rhe (q : ℚ) : ℤ :=
  if q - ⌊q⌋ < 1/2 then ⌊q⌋
  else if 1/2 < q - ⌊q⌋ then ⌊q⌋ + 1
  else if ⌊q⌋ % 2 = 0 then ⌊q⌋ else ⌊q⌋ + 1

/-- Python's `round(x, 2)` on an exact value. -/
def round2 (q : ℚ) : ℚ :=
  (rhe (q * 100) : ℚ) / 100

/-- The `price_range` part of `GoogleShoppingService.get_price_insights`. -/
structure PriceRange where
  min : ℚ
  max : ℚ
  average : ℚ
  median : ℚ
deriving DecidableEq

/-- Lines 96-102 of `google_shopping_service.py`: the raw statistics
`min(prices)`, `max(prices)`, `sum(prices)/len(prices)`,
`sorted(prices)[len(prices) // 2]`, all 0 when the list is empty. -/
def priceRangeRaw (prices : List ℚ) : PriceRange :=
  if prices = [] then { min := 0, max := 0, average := 0, median := 0 }
  else
    { min := pyMin prices,
      max := pyMax prices,
      average := prices.sum / (prices.length : ℚ),
      median := (sortAsc prices).getD (prices.length / 2) 0 }

/-- The `price_range` dict returned by `get_price_insights`: each statistic
passed through `round(x, 2)` at the output boundary. -/
def priceInsights (prices : List ℚ) : PriceRange :=
  { min := round2 (priceRangeRaw prices).min,
    max := round2 (priceRangeRaw prices).max,
    average := round2 (priceRangeRaw prices).average,
    median := round2 (priceRangeRaw prices).median }

/-- Python `statistics.median`: mean of the two middle elements of the
sorted list for even length, the middle element for odd length (0 on the
unreachable empty case - the callers in `pricing_agent.py` guard nonempty). -/
def trueMedian (l : List ℚ) : ℚ :=
  if l.length = 0 then 0
  else if l.length % 2 = 1 then (sortAsc l).getD (l.length / 2) 0
  else ((sortAsc l).getD (l.length / 2 - 1) 0 + (sortAsc l).getD (l.length / 2) 0) / 2

/-- One strategy dict produced by `PricingStrategyTool`; keys absent from a
given dict are `none`. -/
structure PricingStrategy where
  price : ℚ
  strategy : String
  market_position : Option String
  expected_sale_speed : Option String
  expected_final_price : Option ℚ
  confidence : Option ℚ
deriving DecidableEq

/-- `PricingStrategyTool._calculate_competitive_pricing`. -/
def calculateCompetitivePricing (market_prices : List ℚ) : PricingStrategy :=
  if market_prices = [] then
    { price := 0, strategy := "no_market_data", market_position := none,
      expected_sale_speed := none, expected_final_price := none, confidence := none }
  else
    { price := round2 (trueMedian market_prices * 0.95),
      strategy := "competitive",
      market_position := some "slightly_below_median",
      expected_sale_speed := some "medium",
      expected_final_price := none,
      confidence := some 0.8 }

/-- `PricingStrategyTool._calculate_quick_sale_pricing`. -/
def calculateQuickSalePricing (market_prices : List ℚ) : PricingStrategy :=
  if market_prices = [] then
    { price := 0, strategy := "no_market_data", market_position := none,
      expected_sale_speed := none, expected_final_price := none, confidence := none }
  else
    { price := round2 (trueMedian market_prices * 0.78),
      strategy := "quick_sale",
      market_position := some "below_market",
      expected_sale_speed := some "fast",
      expected_final_price := none,
      confidence := some 0.9 }

/-- `PricingStrategyTool._calculate_premium_pricing`. -/
def calculatePremiumPricing (market_prices : List ℚ) : PricingStrategy :=
  if market_prices = [] then
    { price := 0, strategy := "no_market_data", market_position := none,
      expected_sale_speed := none, expected_final_price := none, confidence := none }
  else
    { price := round2 (trueMedian market_prices * 1.12),
      strategy := "premium",
      market_position := some "above_market",
      expected_sale_speed := some "slow",
      expected_final_price := none,
      confidence := some 0.6 }

/-- `PricingStrategyTool._calculate_auction_pricing`. -/
def calculateAuctionPricing (market_prices : List ℚ) : PricingStrategy :=
  if market_prices = [] then
    { price := 0, strategy := "no_market_data", market_position := none,
      expected_sale_speed := none, expected_final_price := none, confidence := none }
  else
    { price := round2 (trueMedian market_prices * 0.65),
      strategy := "auction_start",
      market_position := some "well_below_market",
      expected_sale_speed := none,
      expected_final_price := some (round2 (trueMedian market_prices * 0.95)),
      confidence := some 0.7 }

/-!
Helper lemmas shared by the claim theorems.
-/

theorem amazonCategoryFee_default : amazonCategoryFee "default" = none := rfl

theorem ebayStoreSub_basic : ebayStoreSub "basic" = some 7.95 := rfl

theorem foldl_min_le (xs : List ℚ) (x : ℚ) :
    xs.foldl min x ≤ x ∧ ∀ a ∈ xs, xs.foldl min x ≤ a := by
  induction xs generalizing x with
  | nil => simp
  | cons y ys ih =>
    refine ⟨?_, ?_⟩
    · show ys.foldl min (min x y) ≤ x
      exact le_trans (ih (min x y)).1 (min_le_left x y)
    · intro a ha
      show ys.foldl min (min x y) ≤ a
      rcases List.mem_cons.mp ha with h | h
      · subst h
        exact le_trans (ih (min x a)).1 (min_le_right x a)
      · exact (ih (min x y)).2 a h

theorem foldl_max_ge (xs : List ℚ) (x : ℚ) :
    x ≤ xs.foldl max x ∧ ∀ a ∈ xs, a ≤ xs.foldl max x := by
  induction xs generalizing x with
  | nil => simp
  | cons y ys ih =>
    refine ⟨?_, ?_⟩
    · show x ≤ ys.foldl max (max x y)
      exact le_trans (le_max_left x y) (ih (max x y)).1
    · intro a ha
      show a ≤ ys.foldl max (max x y)
      rcases List.mem_cons.mp ha with h | h
      · subst h
        exact le_trans (le_max_right x a) (ih (max x a)).1
      · exact (ih (max x y)).2 a h

theorem pyMin_le_of_mem {l : List ℚ} {a : ℚ} (h : a ∈ l) : pyMin l ≤ a := by
  cases l with
  | nil => exact absurd h (List.not_mem_nil a)
  | cons x xs =>
    rcases List.mem_cons.mp h with h | h
    · exact h ▸ (foldl_min_le xs x).1
    · exact (foldl_min_le xs x).2 a h

theorem pyMax_ge_of_mem {l : List ℚ} {a : ℚ} (h : a ∈ l) : a ≤ pyMax l := by
  cases l with
  | nil => exact absurd h (List.not_mem_nil a)
  | cons x xs =>
    rcases List.mem_cons.mp h with h | h
    · exact h ▸ (foldl_max_ge xs x).1
    · exact (foldl_max_ge xs x).2 a h

theorem sortAsc_getD_mem (l : List ℚ) (h : l ≠ []) (i : ℕ) (hi : i < l.length) :
    (sortAsc l).getD i 0 ∈ l := by
  have hlen : (sortAsc l).length = l.length := by
    unfold sortAsc
    exact List.length_insertionSort _ l
  have hidx : i < (sortAsc l).length := by rw [hlen]; exact hi
  have hget : (sortAsc l).getD i 0 = (sortAsc l).get ⟨i, hidx⟩ := by
    rw [List.getD_eq_getElem?_getD, List.getElem?_eq_getElem hidx]
    rfl
  rw [hget]
  have hmem : (sortAsc l).get ⟨i, hidx⟩ ∈ sortAsc l := List.get_mem _ _ hidx
  exact (List.mem_insertionSort (r := (· ≤ ·))).mp hmem

theorem rhe_floor_bounds (q : ℚ) : ⌊q⌋ ≤ rhe q ∧ rhe q ≤ ⌊q⌋ + 1 := by
  unfold rhe
  split_ifs <;> omega

theorem rhe_mono {x y : ℚ} (h : x ≤ y) : rhe x ≤ rhe y := by
  rcases lt_or_ge ⌊x⌋ ⌊y⌋ with hf | hf
  · have hx := (rhe_floor_bounds x).2
    have hy := (rhe_floor_bounds y).1
    omega
  · have hfe : ⌊x⌋ = ⌊y⌋ := le_antisymm (Int.floor_mono h) hf
    have hr : x - (⌊x⌋ : ℚ) ≤ y - (⌊y⌋ : ℚ) := by
      rw [hfe]; linarith
    unfold rhe
    rw [hfe] at *
    split_ifs <;> first | omega | linarith

theorem rhe_int (n : ℤ) : rhe (n : ℚ) = n := by
  unfold rhe
  rw [Int.floor_intCast]
  norm_num

theorem round2_mono {x y : ℚ} (h : x ≤ y) : round2 x ≤ round2 y := by
  unfold round2
  have h1 : rhe (x * 100) ≤ rhe (y * 100) := rhe_mono (by linarith)
  have h2 : ((rhe (x * 100) : ℚ)) ≤ (rhe (y * 100) : ℚ) := Int.cast_le.mpr h1
  linarith

theorem round2_cent (q : ℚ) (n : ℤ) (h : q * 100 = (n : ℚ)) : round2 q = q := by
  unfold round2
  rw [h, rhe_int]
  have : q = (n : ℚ) / 100 := by rw [← h]; ring
  rw [this]

theorem filterMap_tryCalculateFees (ps : List (Option MarketplacePlatform))
    (sale_price shipping_cost item_cost : ℚ) :
    (ps.filterMap (fun p => tryCalculateFees p sale_price shipping_cost item_cost)) =
    (ps.filterMap id).map
      (fun p => calculateFees p sale_price shipping_cost item_cost defaultOptions) := by
  induction ps with
  | nil => rfl
  | cons hd tl ih =>
    cases hd with
    | none =>
      have hnone : tryCalculateFees (none : Option MarketplacePlatform)
          sale_price shipping_cost item_cost = none := rfl
      simp [List.filterMap_cons, hnone, ih]
    | some v =>
      have hsome : tryCalculateFees (some v) sale_price shipping_cost item_cost =
          some (calculateFees v sale_price shipping_cost item_cost defaultOptions) := rfl
      simp [List.filterMap_cons, hsome, ih]

/-!
Claim theorems.
-/

/-- C1: for every platform and all nonnegative `sale_price`, `shipping_cost`
and `item_cost`, `calculate_fees` returns
`profit = sale_price + shipping_cost - total_fees - item_cost` exactly,
including when that value is negative (nothing clamps it and no error is
raised). -/
theorem calculateFees_profit_formula (p : MarketplacePlatform)
    (sale_price shipping_cost item_cost : ℚ) (opts : FeeOptions)
    (h1 : 0 ≤ sale_price) (h2 : 0 ≤ shipping_cost) (h3 : 0 ≤ item_cost) :
    (calculateFees p sale_price shipping_cost item_cost opts).profit =
      sale_price + shipping_cost -
        (calculateFees p sale_price shipping_cost item_cost opts).total_fees -
        item_cost :=
  rfl

/-- C1 witness: the formula at eBay, sale 1, shipping 0, item cost 100,
where the profit is a loss. -/
theorem calculateFees_profit_formula_witness :
    (calculateFees .ebay 1 0 100 defaultOptions).profit =
      1 + 0 - (calculateFees .ebay 1 0 100 defaultOptions).total_fees - 100 :=
  calculateFees_profit_formula .ebay 1 0 100 defaultOptions
    (by norm_num) (by norm_num) (by norm_num)

/-- C2 counterexample: for eBay with sale 100, shipping 0, item cost 20 and
no options, the code charges a 12.95 final value fee (rate 0.1295) and a
2.95 payment fee (rate 0.0295, no fixed part), so total fees are 15.90 and
profit is 64.10 - not the claimed 16.45 and 63.55. -/
theorem ebay_scenario1_counterexample :
    (calculateFees .ebay 100 0 20 defaultOptions).total_fees = 15.90 ∧
    (calculateFees .ebay 100 0 20 defaultOptions).profit = 64.10 ∧
    ((15.90 : ℚ) ≠ 16.45) ∧ ((64.10 : ℚ) ≠ 63.55) := by
  refine ⟨?_, ?_, by norm_num, by norm_num⟩ <;>
    norm_num [calculateFees, calculateEbayFees, defaultOptions]

/-- C2 amended: for eBay with sale 100, shipping 0, item cost 20 and no
options, the breakdown is a 12.95 final value fee and a 2.95 payment
processing fee, with total fees 15.90 and net profit 64.10. -/
theorem ebay_scenario1_fees :
    (calculateFees .ebay 100 0 20 defaultOptions).fee_breakdown =
      [("final_value_fee", FeeEntry.num 12.95),
       ("payment_processing_fee", FeeEntry.num 2.95)] ∧
    (calculateFees .ebay 100 0 20 defaultOptions).total_fees = 15.90 ∧
    (calculateFees .ebay 100 0 20 defaultOptions).profit = 64.10 := by
  refine ⟨?_, ?_, ?_⟩ <;>
    norm_num [calculateFees, calculateEbayFees, defaultOptions]

/-- C3 counterexample: for eBay with a recognized `store_subscription`
option the 7.95 subscription line is added to the breakdown but not to
`total_fees`, so the sum of the fee line items (9.54) differs from
`total_fees` (1.59). -/
theorem ebay_store_line_sum_counterexample :
    feeLineSum (calculateFees .ebay 10 0 0
        { defaultOptions with store_subscription := some "basic" }).fee_breakdown = 9.54 ∧
    (calculateFees .ebay 10 0 0
        { defaultOptions with store_subscription := some "basic" }).total_fees = 1.59 ∧
    ((9.54 : ℚ) ≠ 1.59) := by
  refine ⟨?_, ?_, by norm_num⟩ <;>
    norm_num [calculateFees, calculateEbayFees, defaultOptions, feeLineSum,
      ebayStoreSub_basic]

/-- C3 amended: for every platform and all inputs, `total_fees` equals the
sum of the numeric fee line items of the breakdown whenever no
`store_subscription` option is set (the eBay store subscription is the one
informational line excluded from `total_fees`); in particular this holds
for Vinted, whose string note carries no amount. -/
theorem total_fees_eq_line_sum (p : MarketplacePlatform)
    (sale_price shipping_cost item_cost : ℚ) (opts : FeeOptions)
    (h : opts.store_subscription = none) :
    feeLineSum (calculateFees p sale_price shipping_cost item_cost opts).fee_breakdown =
      (calculateFees p sale_price shipping_cost item_cost opts).total_fees := by
  cases p
  case ebay =>
    cases hI : opts.international.getD false <;>
      simp [calculateFees, calculateEbayFees, feeLineSum, h, hI] <;> ring
  case amazon =>
    cases hF : opts.fba.getD false <;>
      simp [calculateFees, calculateAmazonFees, feeLineSum, hF] <;> ring
  case etsy =>
    simp [calculateFees, calculateEtsyFees, feeLineSum] <;> ring
  case facebook_marketplace =>
    cases hS : opts.shipped.getD true <;>
      simp [calculateFees, calculateFacebookFees, feeLineSum, hS] <;> ring
  case mercari =>
    cases hL : opts.luxury_authentication.getD false <;>
      simp [calculateFees, calculateMercariFees, feeLineSum, hL] <;> ring
  case poshmark =>
    rcases lt_or_ge sale_price 15 with hP | hP <;>
      simp [calculateFees, calculatePoshmarkFees, feeLineSum, hP, not_lt.mpr]
  case depop =>
    by_cases hD : opts.payment_method.getD "depop_payments" = "paypal" <;>
      simp [calculateFees, calculateDepopFees, feeLineSum, hD] <;> ring
  case vinted =>
    simp [calculateFees, calculateVintedFees, feeLineSum]

/-- C3 witness: the invariant at eBay, sale 10, no options. -/
theorem total_fees_eq_line_sum_witness :
    feeLineSum (calculateFees .ebay 10 0 0 defaultOptions).fee_breakdown =
      (calculateFees .ebay 10 0 0 defaultOptions).total_fees :=
  total_fees_eq_line_sum .ebay 10 0 0 defaultOptions rfl

/-- C4 counterexample: a negative `sale_price` is not rejected: the call
succeeds and returns a fully computed result (here with negative fees and
profit -4.205), so no `InvalidInput` failure exists. -/
theorem negative_input_not_rejected :
    calculateFeesChecked (some .ebay) (-5) 0 0 defaultOptions =
      .ok (calculateFees .ebay (-5) 0 0 defaultOptions) ∧
    (calculateFees .ebay (-5) 0 0 defaultOptions).profit = -4.205 := by
  refine ⟨rfl, ?_⟩
  norm_num [calculateFees, calculateEbayFees, defaultOptions]

/-- C4 amended: `calculate_fees` performs no validation of the monetary
inputs: for every known platform and arbitrary (also negative) inputs the
call returns a computed result, and the only failure path is an unknown
platform identifier. -/
theorem calculateFees_no_input_validation :
    (∀ (p : MarketplacePlatform) (sale_price shipping_cost item_cost : ℚ)
        (opts : FeeOptions),
      calculateFeesChecked (some p) sale_price shipping_cost item_cost opts =
        .ok (calculateFees p sale_price shipping_cost item_cost opts)) ∧
    (∀ (sale_price shipping_cost item_cost : ℚ) (opts : FeeOptions),
      calculateFeesChecked none sale_price shipping_cost item_cost opts =
        .error "Platform not supported") :=
  ⟨fun _ _ _ _ _ => rfl, fun _ _ _ _ => rfl⟩

/-- C5 counterexample: Etsy at sale price 0 keeps its fixed fee components:
the listing line is 0.20 and the payment line 0.25, so with item cost 5 the
profit is -5.45, not the claimed -item_cost = -5. -/
theorem etsy_zero_price_counterexample :
    (calculateFees .etsy 0 0 5 defaultOptions).fee_breakdown =
      [("listing_fee", FeeEntry.num 0.20),
       ("transaction_fee", FeeEntry.num 0),
       ("payment_processing_fee", FeeEntry.num 0.25)] ∧
    (calculateFees .etsy 0 0 5 defaultOptions).profit = -5.45 ∧
    ((-5.45 : ℚ) ≠ -5) ∧ FeeEntry.num 0.20 ≠ FeeEntry.num 0 := by
  refine ⟨?_, ?_, by norm_num, by simp only [ne_eq, FeeEntry.num.injEq]; norm_num⟩ <;>
    norm_num [calculateFees, calculateEtsyFees, defaultOptions]

/-- C5 amended: at `sale_price = 0` (shipping 0, no options) only eBay,
Amazon and Vinted produce all-zero fee lines and `profit = -item_cost`;
the platforms with fixed components keep them: Etsy 0.45 (listing 0.20 +
payment fixed 0.25), Facebook Marketplace, Mercari and Depop 0.30 (payment
fixed), Poshmark the flat 2.95 commission, each with
`profit = -(those fees) - item_cost`. -/
theorem zero_sale_price_fees (item_cost : ℚ) :
    (calculateFees .ebay 0 0 item_cost defaultOptions).profit = -item_cost ∧
    (calculateFees .ebay 0 0 item_cost defaultOptions).fee_breakdown =
      [("final_value_fee", FeeEntry.num 0), ("payment_processing_fee", FeeEntry.num 0)] ∧
    (calculateFees .amazon 0 0 item_cost defaultOptions).profit = -item_cost ∧
    (calculateFees .amazon 0 0 item_cost defaultOptions).fee_breakdown =
      [("referral_fee", FeeEntry.num 0)] ∧
    (calculateFees .vinted 0 0 item_cost defaultOptions).profit = -item_cost ∧
    (calculateFees .vinted 0 0 item_cost defaultOptions).fee_breakdown =
      [("seller_fee", FeeEntry.num 0), ("note", FeeEntry.txt "Fees paid by buyer")] ∧
    (calculateFees .etsy 0 0 item_cost defaultOptions).profit = -0.45 - item_cost ∧
    (calculateFees .facebook_marketplace 0 0 item_cost defaultOptions).profit =
      -0.30 - item_cost ∧
    (calculateFees .mercari 0 0 item_cost defaultOptions).profit = -0.30 - item_cost ∧
    (calculateFees .depop 0 0 item_cost defaultOptions).profit = -0.30 - item_cost ∧
    (calculateFees .poshmark 0 0 item_cost defaultOptions).profit = -2.95 - item_cost := by
  refine ⟨?_, ?_, ?_, ?_, ?_, ?_, ?_, ?_, ?_, ?_, ?_⟩ <;>
    norm_num [calculateFees, calculateEbayFees, calculateAmazonFees, calculateEtsyFees,
      calculateFacebookFees, calculateMercariFees, calculatePoshmarkFees,
      calculateDepopFees, calculateVintedFees, defaultOptions, amazonCategoryFee_default] <;>
    ring

/-- C6 counterexample: for the even-length price list [10, 20] the summary
median is the element at index `len//2 = 1` of the sorted list, which is 20,
the upper-middle element; the lower-middle element (index 0) is 10 ≠ 20. -/
theorem median_lower_middle_counterexample :
    (priceInsights [10, 20]).median = 20 ∧
    (sortAsc [10, 20]).getD 0 0 = 10 ∧ ((20 : ℚ) ≠ 10) := by
  have h20 : round2 (20 : ℚ) = 20 := round2_cent 20 2000 (by norm_num)
  have hne : ([10, 20] : List ℚ) ≠ [] := List.cons_ne_nil 10 [20]
  refine ⟨?_, by norm_num [sortAsc], by norm_num⟩
  norm_num [priceInsights, priceRangeRaw, sortAsc, h20, hne]

/-- C6 amended: for every non-empty list of positive prices the reported
median is `round2` of the element at index `len//2` of the ascending-sorted
list (for even length the upper-middle element, for odd length the middle
element), and the reported statistics satisfy min ≤ median ≤ max. -/
theorem priceInsights_median_bounds (prices : List ℚ) (h1 : prices ≠ [])
    (h2 : ∀ p ∈ prices, 0 < p) :
    (priceInsights prices).median =
      round2 ((sortAsc prices).getD (prices.length / 2) 0) ∧
    (priceInsights prices).min ≤ (priceInsights prices).median ∧
    (priceInsights prices).median ≤ (priceInsights prices).max := by
  have hmem : (sortAsc prices).getD (prices.length / 2) 0 ∈ prices :=
    sortAsc_getD_mem prices h1 (prices.length / 2)
      (Nat.div_lt_self (List.length_pos.mpr h1) one_lt_two)
  have hmin := pyMin_le_of_mem hmem
  have hmax := pyMax_ge_of_mem hmem
  refine ⟨?_, ?_, ?_⟩ <;>
    simp only [priceInsights, priceRangeRaw, if_neg h1]
  · exact round2_mono hmin
  · exact round2_mono hmax

/-- C6 witness: the bounds at the price list [10, 20, 30, 40, 50]. -/
theorem priceInsights_median_bounds_witness :
    (priceInsights [10, 20, 30, 40, 50]).min ≤
      (priceInsights [10, 20, 30, 40, 50]).median ∧
    (priceInsights [10, 20, 30, 40, 50]).median ≤
      (priceInsights [10, 20, 30, 40, 50]).max :=
  ⟨(priceInsights_median_bounds [10, 20, 30, 40, 50]
      (List.cons_ne_nil 10 [20, 30, 40, 50]) (by norm_num)).2.1,
   (priceInsights_median_bounds [10, 20, 30, 40, 50]
      (List.cons_ne_nil 10 [20, 30, 40, 50]) (by norm_num)).2.2⟩

/-- C7 counterexample: for the price list [10.01] the derived quick-sale
price is 7.81, the 2-decimal rounding of median × 0.78 = 7.8078, not
median × 0.78 itself. -/
theorem quick_sale_rounding_counterexample :
    (calculateQuickSalePricing [10.01]).price = 7.81 ∧
    ((7.81 : ℚ) ≠ 10.01 * 0.78) := by
  have hm : trueMedian [10.01] = 10.01 := by norm_num [trueMedian, sortAsc]
  have hval : (10.01 : ℚ) * 0.78 = 7.8078 := by norm_num
  have hf : ⌊(780.78 : ℚ)⌋ = 780 := by rw [Int.floor_eq_iff] <;> norm_num
  have hr : rhe 780.78 = 781 := by
    rw [rhe, hf]
    norm_num
  have h2 : round2 7.8078 = 7.81 := by
    rw [round2, show (7.8078 : ℚ) * 100 = 780.78 by norm_num, hr]
    norm_num
  refine ⟨?_, by norm_num⟩
  simp [calculateQuickSalePricing, hm, hval, h2]

/-- C7 amended: for every non-empty list of positive market prices with
(true) median m, the four strategies are derived with the fixed multipliers
0.78 / 0.95 / 1.12 / 0.65, confidences 0.9 / 0.8 / 0.6 / 0.7, the auction
strategy carrying expected_final_price = m × 0.95, every derived price being
rounded to 2 decimal places at the output; an empty price list yields
price 0 with strategy label no_market_data for every strategy. -/
theorem pricing_strategy_multipliers (prices : List ℚ) (h1 : prices ≠ [])
    (h2 : ∀ p ∈ prices, 0 < p) :
    calculateQuickSalePricing prices =
      { price := round2 (trueMedian prices * 0.78), strategy := "quick_sale",
        market_position := some "below_market", expected_sale_speed := some "fast",
        expected_final_price := none, confidence := some 0.9 } ∧
    calculateCompetitivePricing prices =
      { price := round2 (trueMedian prices * 0.95), strategy := "competitive",
        market_position := some "slightly_below_median",
        expected_sale_speed := some "medium",
        expected_final_price := none, confidence := some 0.8 } ∧
    calculatePremiumPricing prices =
      { price := round2 (trueMedian prices * 1.12), strategy := "premium",
        market_position := some "above_market", expected_sale_speed := some "slow",
        expected_final_price := none, confidence := some 0.6 } ∧
    calculateAuctionPricing prices =
      { price := round2 (trueMedian prices * 0.65), strategy := "auction_start",
        market_position := some "well_below_market", expected_sale_speed := none,
        expected_final_price := some (round2 (trueMedian prices * 0.95)),
        confidence := some 0.7 } ∧
    calculateQuickSalePricing [] =
      { price := 0, strategy := "no_market_data", market_position := none,
        expected_sale_speed := none, expected_final_price := none,
        confidence := none } ∧
    calculateCompetitivePricing [] =
      { price := 0, strategy := "no_market_data", market_position := none,
        expected_sale_speed := none, expected_final_price := none,
        confidence := none } ∧
    calculatePremiumPricing [] =
      { price := 0, strategy := "no_market_data", market_position := none,
        expected_sale_speed := none, expected_final_price := none,
        confidence := none } ∧
    calculateAuctionPricing [] =
      { price := 0, strategy := "no_market_data", market_position := none,
        expected_sale_speed := none, expected_final_price := none,
        confidence := none } := by
  refine ⟨?_, ?_, ?_, ?_, rfl, rfl, rfl, rfl⟩ <;>
    simp [calculateQuickSalePricing, calculateCompetitivePricing,
      calculatePremiumPricing, calculateAuctionPricing, h1]

/-- C7 witness: at the price list [10, 20, 30, 40, 50] the median is 30 and
the quick-sale price is 23.40. -/
theorem pricing_strategy_multipliers_witness :
    calculateQuickSalePricing [10, 20, 30, 40, 50] =
      { price := round2 (trueMedian [10, 20, 30, 40, 50] * 0.78),
        strategy := "quick_sale", market_position := some "below_market",
        expected_sale_speed := some "fast", expected_final_price := none,
        confidence := some 0.9 } ∧
    (calculateQuickSalePricing [10, 20, 30, 40, 50]).price = 23.40 := by
  have h := (pricing_strategy_multipliers [10, 20, 30, 40, 50]
    (List.cons_ne_nil 10 [20, 30, 40, 50]) (by norm_num)).1
  refine ⟨h, ?_⟩
  rw [h]
  have hm : trueMedian [10, 20, 30, 40, 50] = 30 := by
    norm_num [trueMedian, sortAsc]
  show round2 (trueMedian [10, 20, 30, 40, 50] * 0.78) = 23.40
  rw [hm, show (30 : ℚ) * 0.78 = 23.40 by norm_num]
  exact round2_cent 23.40 2340 (by norm_num)

/-- C8 counterexample: the default platform set of `compare_platforms` has
eight members (the enum also contains Vinted), so the comparison returns
eight entries, not seven. -/
theorem compare_default_platform_count :
    (comparePlatforms 50 10 5 none).length = 8 ∧ ((8 : ℕ) ≠ 7) := by
  refine ⟨?_, by norm_num⟩
  have e := filterMap_tryCalculateFees (allPlatforms.map some) 50 5 10
  simp only [comparePlatforms, Option.getD_none, e, sortByProfit]
  rw [List.length_insertionSort, List.length_map]
  rfl

/-- C8 amended: `compare_platforms(sale_price=50, item_cost=10, shipping=5)`
over the default (all eight) platforms returns eight entries ordered by
non-increasing net profit — not strictly decreasing, since Mercari and Depop
tie at 38.105. -/
theorem compare_default_ranking :
    (comparePlatforms 50 10 5 none).map (fun r => (r.platform, r.profit)) =
      [("vinted", 45), ("facebook_marketplace", 40.605), ("etsy", 39.65),
       ("mercari", 38.105), ("depop", 38.105), ("amazon", 37.5),
       ("ebay", 36.255), ("poshmark", 35)] := by
  norm_num [comparePlatforms, allPlatforms, tryCalculateFees, calculateFeesChecked,
    calculateFees, calculateEbayFees, calculateAmazonFees, calculateEtsyFees,
    calculateFacebookFees, calculateMercariFees, calculatePoshmarkFees,
    calculateDepopFees, calculateVintedFees, sortByProfit, defaultOptions,
    platformValue, amazonCategoryFee_default]

/-- C9 counterexample: a platform whose fee computation fails is not
converted to an annotated entry: comparing with [ebay, unknown] returns a
single entry, for ebay only, with nothing recording the failed platform. -/
theorem failing_platform_silently_dropped :
    (comparePlatforms 10 0 0 (some [some .ebay, none])).length = 1 ∧
    (comparePlatforms 10 0 0 (some [some .ebay, none])).map
      (fun r => r.platform) = ["ebay"] := by
  exact ⟨rfl, rfl⟩

/-- C9 amended: a failing platform is silently skipped: the batch
comparison equals the profit-sorted results of exactly the valid platforms,
one entry per valid platform; the call itself is total and never raises. -/
theorem comparePlatforms_skips_failures (sale_price item_cost shipping_cost : ℚ)
    (ps : List (Option MarketplacePlatform)) :
    comparePlatforms sale_price item_cost shipping_cost (some ps) =
      sortByProfit ((ps.filterMap id).map
        (fun p => calculateFees p sale_price shipping_cost item_cost defaultOptions)) ∧
    (comparePlatforms sale_price item_cost shipping_cost (some ps)).length =
      (ps.filterMap id).length := by
  have h := filterMap_tryCalculateFees ps sale_price shipping_cost item_cost
  have e : comparePlatforms sale_price item_cost shipping_cost (some ps) =
      sortByProfit ((ps.filterMap id).map
        (fun p => calculateFees p sale_price shipping_cost item_cost defaultOptions)) := by
    simp only [comparePlatforms, Option.getD_some, h]
  refine ⟨e, ?_⟩
  rw [e]
  unfold sortByProfit
  rw [List.length_insertionSort, List.length_map]

/-- C10: Poshmark net profit is not monotone in the sale price: at the
15-dollar threshold the commission jumps from flat 2.95 to 20% of the price,
so for every fixed shipping cost and item cost the profit at 14.99 (12.04 +
shipping − cost) strictly exceeds the profit at 15.00 (12.00 + shipping −
cost). -/
theorem poshmark_profit_not_monotone :
    ((14.99 : ℚ) < 15) ∧
    ∀ shipping_cost item_cost : ℚ,
      (calculateFees .poshmark 15 shipping_cost item_cost defaultOptions).profit <
        (calculateFees .poshmark 14.99 shipping_cost item_cost defaultOptions).profit := by
  refine ⟨by norm_num, ?_⟩
  intro s c
  simp only [calculateFees, calculatePoshmarkFees]
  norm_num
  linarith
